import Mathlib

/-!
Verification of the robot-logs-analyzer ingestion/classification/windowing
core against its specification.

The Python sources are shallowly embedded:
* `LogEntry` mirrors `src/models/log_entry.py`.
* `ContextEngine` / `SmartContextEngine` mirror `src/agents/context_engine.py`;
  the rolling `deque(maxlen=...)` is a Lean list with explicit truncation,
  and `datetime` values are integers (microseconds since the epoch) tagged
  with their Python timezone-awareness (`PyDt.aware` / `PyDt.naive`),
  because aware/naive mixing is observable (subtracting them raises).
* Wall-clock reads (`datetime.now()`) inside the parser are represented by
  the placeholder constructor `PyTimestamp.now`, standing for the
  nondeterministic current time taken at that point.
* Fallible Python code (a statement that can raise) returns `Except String`.
-/

/-- Python `datetime` component values, as produced by a successful
`datetime.strptime` (year, month, day, hour, minute, second, microsecond). -/
structure PyDatetime where
  year : Nat
  month : Nat
  day : Nat
  hour : Nat
  minute : Nat
  second : Nat
  microsecond : Nat
deriving DecidableEq

/-- Timestamp stored in a `LogEntry`: either a concrete parsed datetime or
the wall-clock time read by `datetime.now()` at parse time (nondeterministic,
hence an opaque placeholder constructor). -/
inductive PyTimestamp where
  | parsed (dt : PyDatetime)
  | now
deriving DecidableEq

/-- Mirror of `models/log_entry.py` `LogEntry` (pydantic model). -/
structure LogEntry where
  timestamp : PyTimestamp
  level : String
  node : String
  message : String
  raw_line : String
  file_path : Option String := none
  line_number : Option Nat := none
deriving DecidableEq

/-- Python `str.upper()` on ASCII input, character by character (kept
list-based so that it evaluates inside the kernel). -/
def pyUpper (s : String) : String :=
  String.mk (s.data.map Char.toUpper)

/-- `LogEntry.is_error` (log_entry.py lines 32-34). -/
def LogEntry.is_error (e : LogEntry) : Bool :=
  ["ERROR", "FATAL", "CRITICAL"].contains (pyUpper e.level)

/-- `LogEntry.is_warning` (log_entry.py lines 36-38). -/
def LogEntry.is_warning (e : LogEntry) : Bool :=
  pyUpper e.level == "WARN"

/-- A Python `datetime` used for flush bookkeeping: microseconds since the
epoch, tagged aware (`datetime.now(timezone.utc)`) or naive
(`datetime.utcnow()`). -/
inductive PyDt where
  | aware (usec : Int)
  | naive (usec : Int)
deriving DecidableEq

/-- Subtraction of two Python datetimes, in microseconds.  Mixing an
offset-naive and an offset-aware value raises `TypeError` in Python, so the
result is fallible. -/
def pyDtSub (a b : PyDt) : Except String Int :=
  match a, b with
  | .aware x, .aware y => .ok (x - y)
  | .naive x, .naive y => .ok (x - y)
  | _, _ => .error "TypeError: cannot subtract offset-naive and offset-aware datetimes"

/-- `deque(maxlen := m)` append: the new element goes to the right and the
oldest elements are evicted from the left so that at most `m` remain
(context_engine.py line 36 together with line 27). -/
def dequeAppend (maxlen : Nat) (buf : List α) (e : α) : List α :=
  let b := buf ++ [e]
  b.drop (b.length - maxlen)

/-- `deque(iterable, maxlen := m)`: keeps only the last `m` elements of the
iterable (context_engine.py lines 139-140). -/
def dequeOf (maxlen : Nat) (l : List α) : List α :=
  l.drop (l.length - maxlen)

/-- Python `lst[-k:]`: the last `k` elements, except that `k = 0` yields the
whole list (`lst[-0:]` is `lst[0:]`). -/
def pySliceLast (k : Nat) (l : List α) : List α :=
  if k == 0 then l else l.drop (l.length - k)

/-- State of `ContextEngine` (context_engine.py lines 14-31): the relevant
fields are the configuration, the rolling buffer (in arrival order) and
`_last_flush_time`, initialised to the aware `utc_now()`. -/
structure ContextEngine where
  window_size : Nat
  timeout_sec : Int
  buffer : List LogEntry
  last_flush_time : PyDt
deriving DecidableEq

/-- `ContextEngine.add` (lines 33-36): append under the lock. -/
def ContextEngine.add (s : ContextEngine) (e : LogEntry) : ContextEngine :=
  { s with buffer := dequeAppend s.window_size s.buffer e }

/-- `ContextEngine.flush` (lines 48-54): capture the buffer, clear it, set
`_last_flush_time := utc_now()` (aware), return the captured snapshot.
The flush instant is passed in explicitly. -/
def ContextEngine.flush (s : ContextEngine) (flushTime : Int) :
    ContextEngine × List LogEntry :=
  ({ s with buffer := [], last_flush_time := .aware flushTime }, s.buffer)

/-- `ContextEngine.should_flush` (lines 56-75).  The timeout branch computes
`datetime.utcnow() - self._last_flush_time`; `datetime.utcnow()` is
offset-naive, so the subtraction is the fallible `pyDtSub` applied to a
`.naive` left operand.  `utcnowUsec` is the wall clock read by
`datetime.utcnow()`. -/
def ContextEngine.should_flush (s : ContextEngine) (triggeredByError : Bool)
    (utcnowUsec : Int) : Except String Bool :=
  if s.buffer.isEmpty then .ok false
  else if triggeredByError then .ok true
  else if s.window_size ≤ s.buffer.length then .ok true
  else
    match pyDtSub (.naive utcnowUsec) s.last_flush_time with
    | .ok d => .ok (decide (s.timeout_sec * 1000000 ≤ d))
    | .error msg => .error msg

/-- State of `SmartContextEngine` (lines 113-127): the base engine plus the
error-context configuration and buffer. -/
structure SmartContextEngine extends ContextEngine where
  error_window_size : Nat
  error_buffer : List LogEntry
deriving DecidableEq

/-- Swallow the outcome of a callback protected by `try ... except Exception`
(the exception is printed, never re-raised). -/
def swallow (r : Except String Unit) : Unit :=
  match r with
  | .ok u => u
  | .error _ => ()

/-- `SmartContextEngine.add` (lines 129-148): append via the base `add`,
compute `is_error := log_entry.is_error()`, and on an error rebuild the
error buffer from `list(self._buffer)[-self.error_window_size:]` and invoke
the `on_error_context` callback inside `try/except`.  The callback is passed
explicitly; its failure is swallowed (lines 143-146). -/
def SmartContextEngine.add (s : SmartContextEngine) (e : LogEntry)
    (onErrorContext : Option (List LogEntry → Except String Unit)) :
    SmartContextEngine × Bool :=
  let base := ContextEngine.add s.toContextEngine e
  let isErr := e.is_error
  if isErr then
    let errorContext := pySliceLast s.error_window_size base.buffer
    let errBuf := dequeOf s.error_window_size errorContext
    let _cb : Unit :=
      match onErrorContext with
      | some f => swallow (f errBuf)
      | none => ()
    ({ s with toContextEngine := base, error_buffer := errBuf }, true)
  else
    ({ s with toContextEngine := base }, false)

/-- `SmartContextEngine` inherits `flush` unchanged from `ContextEngine`
(only the base fields are touched; the error buffer is not). -/
def SmartContextEngine.flush (s : SmartContextEngine) (flushTime : Int) :
    SmartContextEngine × List LogEntry :=
  let p := ContextEngine.flush s.toContextEngine flushTime
  ({ s with toContextEngine := p.1 }, p.2)

/-- One wake-up of `_flush_loop` (lines 77-88): evaluate
`should_flush(triggered_by_error := False)`; on `True` flush and, if the
batch is non-empty and a callback is set, invoke it inside `try/except`.
An exception raised by `should_flush` itself is not caught and propagates (killing
the background task). -/
def ContextEngine.flushLoopStep (s : ContextEngine) (utcnowUsec flushTime : Int)
    (onFlush : Option (List LogEntry → Except String Unit)) :
    Except String ContextEngine :=
  match s.should_flush false utcnowUsec with
  | .error msg => .error msg
  | .ok false => .ok s
  | .ok true =>
    let p := s.flush flushTime
    let _cb : Unit :=
      if p.2.isEmpty then ()
      else
        match onFlush with
        | some f => swallow (f p.2)
        | none => ()
    .ok p.1

/-! ## Entry parser (`src/agents/log_ingestor.py`)

The two `re` patterns are compiled by hand into deterministic matchers.
Both patterns are applied with `re.match` (anchored at the start, the end
left free).  Wherever a greedy quantifier is followed by a character that
its own class can never match (for instance `\w+` before `]`), Python
backtracking can only succeed with the maximal munch, so a `takeWhile`
is an exact translation; the two genuinely backtracking spots — the
optional node group and the trailing `\s*(.+)` — are translated with
explicit alternative/retreat logic. -/

/-- Python `\s` on ASCII input: space, tab, newline, carriage return,
vertical tab, form feed. -/
def pyIsSpace (c : Char) : Bool :=
  c == ' ' || c == '\t' || c == '\n' || c == '\r' || c == '\x0b' || c == '\x0c'

/-- Python `\w` on ASCII input: letters, digits, underscore. -/
def pyIsWordChar (c : Char) : Bool :=
  c.isAlphanum || c == '_'

/-- Consume one expected literal character. -/
def expectChar (c : Char) : List Char → Option (List Char)
  | [] => none
  | x :: xs => if x == c then some xs else none

/-- Greedy `p+`: the maximal non-empty run of characters satisfying `p`,
with the rest of the input. -/
def munch1 (p : Char → Bool) (s : List Char) : Option (List Char × List Char) :=
  let pre := s.takeWhile p
  if pre.isEmpty then none else some (pre, s.drop pre.length)

/-- Exactly `n` decimal digits. -/
def exactDigits : Nat → List Char → Option (List Char)
  | 0, s => some s
  | _ + 1, [] => none
  | n + 1, c :: cs => if c.isDigit then exactDigits n cs else none

/-- Body of capture group 2 of `ROS_LOG_PATTERN`
(`\d{4}-\d{2}-\d{2}\s+\d{2}:\d{2}:\d{2}\.\d+`, log_ingestor.py line 79);
returns the rest of the input after the group. -/
def matchTsBody (s : List Char) : Option (List Char) := do
  let s ← exactDigits 4 s
  let s ← expectChar '-' s
  let s ← exactDigits 2 s
  let s ← expectChar '-' s
  let s ← exactDigits 2 s
  let (_, s) ← munch1 pyIsSpace s
  let s ← exactDigits 2 s
  let s ← expectChar ':' s
  let s ← exactDigits 2 s
  let s ← expectChar ':' s
  let s ← exactDigits 2 s
  let s ← expectChar '.' s
  let (_, s) ← munch1 Char.isDigit s
  pure s

/-- Greedy `.+` (`.` never matches a newline): the maximal non-empty run of
non-newline characters. -/
def dotPlus (s : List Char) : Option (List Char) :=
  let g := s.takeWhile (fun c => c != '\n')
  if g.isEmpty then none else some g

/-- Backtracking `\s*(.+)`: try consuming `k` whitespace characters for
`k` from the maximal run length down to `0` (greedy order) and match `.+`
on what remains; return the `(.+)` capture of the first success. -/
def spacesThenDotPlus (s : List Char) : Nat → Option (List Char)
  | 0 => dotPlus s
  | k + 1 =>
    match dotPlus (s.drop (k + 1)) with
    | some g => some g
    | none => spacesThenDotPlus s k

/-- `\s*:\s*(.+)` — the common tail of both patterns; the first `\s*` is
deterministic because no whitespace character equals `:`.  Returns the
`(.+)` capture. -/
def matchColonMsg (s : List Char) : Option (List Char) := do
  let s1 := s.drop (s.takeWhile pyIsSpace).length
  let s2 ← expectChar ':' s1
  spacesThenDotPlus s2 (s2.takeWhile pyIsSpace).length

/-- The optional node group `\s+\[([^\]]+)\]` of `ROS_LOG_PATTERN`:
capture and rest on success. -/
def matchNodeGroup (s : List Char) : Option (List Char × List Char) := do
  let (_, s) ← munch1 pyIsSpace s
  let s ← expectChar '[' s
  let (g3, s) ← munch1 (fun c => c != ']') s
  let s ← expectChar ']' s
  pure (g3, s)

/-- `(?:\s+\[([^\]]+)\])?\s*:\s*(.+)`: first try with the optional group (it
is greedy), and if the rest then fails, retreat to skipping the group. -/
def matchFullTail (s : List Char) : Option (Option (List Char) × List Char) :=
  match matchNodeGroup s with
  | some (g3, s1) =>
    match matchColonMsg s1 with
    | some g4 => some (some g3, g4)
    | none =>
      match matchColonMsg s with
      | some g4 => some (none, g4)
      | none => none
  | none =>
    match matchColonMsg s with
    | some g4 => some (none, g4)
    | none => none

/-- `re.match` of `ROS_LOG_PATTERN` (log_ingestor.py lines 78-80): on
success, the captures `(level, timestamp, optional node, message)`. -/
def matchFull (line : List Char) : Option (String × String × Option String × String) := do
  let s ← expectChar '[' line
  let (g1, s) ← munch1 pyIsWordChar s
  let s ← expectChar ']' s
  let (_, s) ← munch1 pyIsSpace s
  let s ← expectChar '[' s
  let rest ← matchTsBody s
  let g2 := s.take (s.length - rest.length)
  let s ← expectChar ']' rest
  let (g3, g4) ← matchFullTail s
  pure (String.mk g1, String.mk g2, g3.map String.mk, String.mk g4)

/-- `re.match` of `ROS_SIMPLE_PATTERN` (`\[(\w+)\]\s*\[([^\]]+)\]\s*:\s*(.+)`,
log_ingestor.py lines 83-85): captures `(level, node-or-time, message)`. -/
def matchSimple (line : List Char) : Option (String × String × String) := do
  let s ← expectChar '[' line
  let (g1, s) ← munch1 pyIsWordChar s
  let s ← expectChar ']' s
  let s1 := s.drop (s.takeWhile pyIsSpace).length
  let s2 ← expectChar '[' s1
  let (g2, s3) ← munch1 (fun c => c != ']') s2
  let s4 ← expectChar ']' s3
  let g3 ← matchColonMsg s4
  pure (String.mk g1, String.mk g2, String.mk g3)

/-! ## strptime (`datetime.strptime` as invoked from `_parse_ros_log`)

CPython `_strptime` turns a format into a regex: a whitespace run in the
format becomes `\s+`; `%Y` becomes `\d\d\d\d`; the other numeric directives
become ordered alternations (for instance `%m` is `1[0-2]|0[1-9]|[1-9]`);
`%f` is greedy `[0-9]{1,6}` right-padded to microseconds.  `re.match` must
consume the whole string, and the resulting fields must form a valid
`datetime` (month length, leap years, second at most 59). -/

/-- A format token of the compiled strptime regex. -/
inductive FTok where
  | lit (c : Char)
  | wsp
  | num (alts : List (List (Char → Bool)))
  | frac

/-- Match one fixed-length alternative (a sequence of single-character
classes): the consumed characters and the rest. -/
def matchAltSeq : List (Char → Bool) → List Char → Option (List Char × List Char)
  | [], s => some ([], s)
  | _ :: _, [] => none
  | p :: ps, c :: cs =>
    if p c then
      match matchAltSeq ps cs with
      | some (cap, rest) => some (c :: cap, rest)
      | none => none
    else none

/-- First alternative that makes the continuation succeed (regex
alternation order with backtracking). -/
def firstSome (f : α → Option β) : List α → Option β
  | [] => none
  | a :: rest =>
    match f a with
    | some b => some b
    | none => firstSome f rest

/-- Decimal value of a digit run. -/
def digitsVal (cs : List Char) : Nat :=
  cs.foldl (fun acc c => acc * 10 + (c.toNat - 48)) 0

/-- `%f` capture right-padded to six digits (microseconds). -/
def fracVal (cs : List Char) : Nat :=
  digitsVal cs * 10 ^ (6 - cs.length)

/-- Exactly `n` characters, all digits. -/
def takeExactDigits (n : Nat) (s : List Char) : Option (List Char × List Char) :=
  let cap := s.take n
  if cap.length == n && cap.all Char.isDigit then some (cap, s.drop n) else none

/-- Match a token list against the input, returning the captured numeric
field values in order and the rest of the input.  Greedy constructs try
their longest candidate first and backtrack through the continuation. -/
def matchToks : List FTok → List Char → Option (List Nat × List Char)
  | [], s => some ([], s)
  | .lit c :: ts, s =>
    match expectChar c s with
    | some s1 => matchToks ts s1
    | none => none
  | .wsp :: ts, s =>
    let w := (s.takeWhile pyIsSpace).length
    firstSome (fun k => matchToks ts (s.drop (w - k))) (List.range w)
  | .num alts :: ts, s =>
    firstSome
      (fun alt =>
        match matchAltSeq alt s with
        | some (cap, rest) =>
          match matchToks ts rest with
          | some (vs, r) => some (digitsVal cap :: vs, r)
          | none => none
        | none => none)
      alts
  | .frac :: ts, s =>
    firstSome
      (fun len =>
        match takeExactDigits len s with
        | some (cap, rest) =>
          match matchToks ts rest with
          | some (vs, r) => some (fracVal cap :: vs, r)
          | none => none
        | none => none)
      [6, 5, 4, 3, 2, 1]

/-- Character-class helpers for the strptime directives. -/
def clsEq (x : Char) (c : Char) : Bool := c == x

/-- Character in the inclusive range `lo..hi`. -/
def clsRange (lo hi : Char) (c : Char) : Bool := lo ≤ c && c ≤ hi

/-- `%Y` — exactly four digits. -/
def tokY : FTok := .num [[Char.isDigit, Char.isDigit, Char.isDigit, Char.isDigit]]

/-- `%m` — `1[0-2]|0[1-9]|[1-9]`. -/
def tokMonth : FTok :=
  .num [[clsEq '1', clsRange '0' '2'], [clsEq '0', clsRange '1' '9'], [clsRange '1' '9']]

/-- `%d` — `3[01]|[12]\d|0[1-9]|[1-9]`. -/
def tokDay : FTok :=
  .num [[clsEq '3', clsRange '0' '1'], [clsRange '1' '2', Char.isDigit],
    [clsEq '0', clsRange '1' '9'], [clsRange '1' '9']]

/-- `%H` — `2[0-3]|[0-1]\d|\d`. -/
def tokHour : FTok :=
  .num [[clsEq '2', clsRange '0' '3'], [clsRange '0' '1', Char.isDigit], [Char.isDigit]]

/-- `%M` — `[0-5]\d|\d`. -/
def tokMin : FTok := .num [[clsRange '0' '5', Char.isDigit], [Char.isDigit]]

/-- `%S` — `6[0-1]|[0-5]\d|\d`. -/
def tokSec : FTok :=
  .num [[clsEq '6', clsRange '0' '1'], [clsRange '0' '5', Char.isDigit], [Char.isDigit]]

/-- Compiled tokens of `"%Y-%m-%d %H:%M:%S.%f"`. -/
def fmtWithFrac : List FTok :=
  [tokY, .lit '-', tokMonth, .lit '-', tokDay, .wsp,
    tokHour, .lit ':', tokMin, .lit ':', tokSec, .lit '.', .frac]

/-- Compiled tokens of `"%Y-%m-%d %H:%M:%S"`. -/
def fmtNoFrac : List FTok :=
  [tokY, .lit '-', tokMonth, .lit '-', tokDay, .wsp,
    tokHour, .lit ':', tokMin, .lit ':', tokSec]

/-- Gregorian leap year. -/
def isLeapYear (y : Nat) : Bool :=
  (y % 4 == 0 && y % 100 != 0) || y % 400 == 0

/-- Length of a month. -/
def daysInMonth (y m : Nat) : Nat :=
  if m == 2 then (if isLeapYear y then 29 else 28)
  else if m == 4 || m == 6 || m == 9 || m == 11 then 30
  else 31

/-- The `datetime` constructor validation performed at the end of
`strptime` (raises `ValueError`, reported here as `none`, on an invalid
combination). -/
def mkPyDatetime (y mo d h mi s us : Nat) : Option PyDatetime :=
  if 1 ≤ y && y ≤ 9999 && 1 ≤ mo && mo ≤ 12 && 1 ≤ d && d ≤ daysInMonth y mo
      && h ≤ 23 && mi ≤ 59 && s ≤ 59 && us ≤ 999999 then
    some { year := y, month := mo, day := d, hour := h, minute := mi,
           second := s, microsecond := us }
  else none

/-- `datetime.strptime(str, "%Y-%m-%d %H:%M:%S.%f")`: regex match consuming
the whole string, then constructor validation. -/
def strptimeWithFrac (str : String) : Option PyDatetime :=
  match matchToks fmtWithFrac str.data with
  | some ([y, mo, d, h, mi, s, us], []) => mkPyDatetime y mo d h mi s us
  | _ => none

/-- `datetime.strptime(str, "%Y-%m-%d %H:%M:%S")`. -/
def strptimeNoFrac (str : String) : Option PyDatetime :=
  match matchToks fmtNoFrac str.data with
  | some ([y, mo, d, h, mi, s], []) => mkPyDatetime y mo d h mi s 0
  | _ => none

/-- Timestamp cascade of the full-pattern branch (log_ingestor.py lines
110-118): try the fractional format, then the plain one, then fall back to
`datetime.now()`. -/
def parseFullTimestamp (ts : String) : PyTimestamp :=
  match strptimeWithFrac ts with
  | some dt => .parsed dt
  | none =>
    match strptimeNoFrac ts with
    | some dt => .parsed dt
    | none => .now

/-- Python `str.strip()` (ASCII whitespace). -/
def pyStrip (s : String) : String :=
  String.mk (((s.data.dropWhile pyIsSpace).reverse.dropWhile pyIsSpace).reverse)

/-- `LogIngestor._parse_ros_log` (log_ingestor.py lines 99-162): try the
full pattern, then the simple one, then fall back to an INFO entry that
keeps the whole line as its message.  Total — it always returns exactly one
entry. -/
def parseRosLog (line : String) : LogEntry :=
  match matchFull line.data with
  | some (lvl, tsStr, nodeOpt, msg) =>
    { timestamp := parseFullTimestamp tsStr
      level := pyUpper lvl
      node := nodeOpt.getD "unknown"
      message := pyStrip msg
      raw_line := line }
  | none =>
    match matchSimple line.data with
    | some (lvl, nodeOrTime, msg) =>
      if nodeOrTime.data.contains '/' then
        { timestamp := .now, level := pyUpper lvl, node := nodeOrTime,
          message := pyStrip msg, raw_line := line }
      else
        { timestamp :=
            match strptimeWithFrac nodeOrTime with
            | some dt => .parsed dt
            | none => .now
          level := pyUpper lvl, node := "unknown",
          message := pyStrip msg, raw_line := line }
    | none =>
      { timestamp := .now, level := "INFO", node := "unknown",
        message := line, raw_line := line }

/-! ## Error detector (`src/agents/error_detector.py`)

All rule patterns are compiled with `re.IGNORECASE` and applied with
`.search` (unanchored).  Every pattern in the tables is a sequence of
literal pieces joined by `.*`, so a pattern is embedded as the list of its
literal pieces; `.` does not match a newline, hence the pieces after the
first must all occur, in order, inside the maximal newline-free span that
follows the first piece. -/

/-- Case-insensitive prefix test. -/
def startsWithCI : List Char → List Char → Bool
  | [], _ => true
  | _ :: _, [] => false
  | p :: ps, c :: cs => p.toLower == c.toLower && startsWithCI ps cs

/-- Case-insensitive substring test (`re.search` of a literal). -/
def containsCI (pat : List Char) : List Char → Bool
  | [] => pat.isEmpty
  | c :: cs => startsWithCI pat (c :: cs) || containsCI pat cs

/-- Fuel-driven matcher for `p₁.*p₂.*…` within a newline-free span: each
piece must occur in order, the gaps being arbitrary non-newline characters.
The fuel is structural so the definition evaluates in the kernel; callers
supply enough fuel to explore every position. -/
def seqSearchCI (fuel : Nat) (parts : List (List Char)) (span : List Char) : Bool :=
  match fuel with
  | 0 => false
  | f + 1 =>
    match parts with
    | [] => true
    | p :: rest =>
      (startsWithCI p span && seqSearchCI f rest (span.drop p.length)) ||
      (match span with
        | [] => false
        | _ :: tl => seqSearchCI f (p :: rest) tl)

/-- `re.search` over all start positions of a pattern made of literal
pieces joined by `.*`: the first piece may start anywhere, and the
remaining pieces must follow inside the newline-free span after it. -/
def restSpanMatch (p : List Char) (rest : List (List Char)) (s : List Char) : Bool :=
  let span := (s.drop p.length).takeWhile (fun x => x != '\n')
  seqSearchCI (rest.length + span.length + 1) rest span

def reSearchAux (p : List Char) (rest : List (List Char)) : List Char → Bool
  | [] => startsWithCI p [] && seqSearchCI (rest.length + 1) rest []
  | c :: tl =>
    (startsWithCI p (c :: tl) && restSpanMatch p rest (c :: tl)) ||
    reSearchAux p rest tl

/-- Case-insensitive `re.search` of a `.*`-joined literal pattern. -/
def reSearchCI (parts : List String) (text : List Char) : Bool :=
  match parts with
  | [] => true
  | p :: rest => reSearchAux p.data (rest.map String.data) text

/-- `ErrorDetector.SEVERITY_RULES` (error_detector.py lines 22-62), in
table order; each pattern is its list of literal pieces (only
`safety.*violated` has more than one). -/
def severityRules : List (String × List (List String)) :=
  [("critical",
    [["FATAL"], ["CRITICAL"], ["emergency stop"], ["emergency_stop"],
     ["power failure"], ["hardware failure"], ["collision"],
     ["safety", "violated"]]),
   ("high",
    [["ERROR"], ["Exception"], ["exception"], ["failed"], ["Failed"],
     ["unable"], ["Unable"], ["cannot"], ["Cannot"], ["timeout"],
     ["Timeout"], ["refused"], ["Refused"]]),
   ("medium",
    [["WARN"], ["Warning"], ["warning"], ["deprecated"], ["retry"],
     ["Retry"], ["unstable"]]),
   ("low",
    [["DEBUG"], ["trace"], ["notice"]])]

/-- `ErrorDetector.ERROR_TYPES` (lines 65-120), in table order. -/
def errorTypes : List (String × List (List String)) :=
  [("Transform Timeout",
    [["transform", "timeout"], ["lookup", "transform"],
     ["can", "t", "lookup"], ["no", "transform"]]),
   ("Planning Failure",
    [["plan", "fail"], ["plan", "path"], ["no", "valid", "path"],
     ["goal", "unreachable"], ["planning", "error"]]),
   ("Sensor Timeout",
    [["sensor", "timeout"], ["laser", "timeout"], ["camera", "timeout"],
     ["no", "data", "received"], ["sensor", "not", "respond"],
     ["laser", "not", "respond"]]),
   ("Hardware Connection",
    [["connection", "refused"], ["unable", "connect"],
     ["hardware", "disconnected"], ["communication", "error"]]),
   ("Joint Limit",
    [["joint", "limit"], ["limit", "exceeded"], ["out", "of", "range"],
     ["position", "limit"]]),
   ("Collision Detected",
    [["collision"], ["in", "collision"], ["obstacle", "detected"],
     ["contact", "detected"]]),
   ("Navigation Failure",
    [["navigation", "fail"], ["move_base", "fail"], ["abort", "navigation"]]),
   ("Controller Error",
    [["controller", "error"], ["control", "fail"], ["tracking", "error"]]),
   ("SLAM Error",
    [["slam", "error"], ["localization", "fail"], ["amcl", "error"]])]

/-- Tier scan order of `_classify_severity` (line 217). -/
def tierOrder : List String := ["critical", "high", "medium", "low"]

/-- `self._severity_patterns.get(severity, [])`. -/
def severityPatternsOf (tier : String) : List (List String) :=
  match severityRules.find? (fun p => p.1 == tier) with
  | some p => p.2
  | none => []

/-- Does any pattern of the tier match the text? (inner loop of
`_classify_severity`). -/
def tierMatches (tier : String) (text : List Char) : Bool :=
  (severityPatternsOf tier).any (fun pat => reSearchCI pat text)

/-- Level-based default of `_classify_severity` (lines 223-232). -/
def defaultSeverity (e : LogEntry) : String :=
  let level := pyUpper e.level
  if level == "FATAL" || level == "CRITICAL" then "critical"
  else if level == "ERROR" then "high"
  else if level == "WARN" then "medium"
  else "low"

/-- `ErrorDetector._classify_severity` (lines 214-232): first tier in scan
order with a matching pattern, else the level-based default. -/
def classifySeverity (e : LogEntry) (text : List Char) : String :=
  match tierOrder.find? (fun tier => tierMatches tier text) with
  | some tier => tier
  | none => defaultSeverity e

/-- `ErrorDetector._classify_error_type` (lines 234-240): first category
with a matching pattern, else the explicit `"Unknown Error"` sentinel. -/
def classifyErrorType (text : List Char) : String :=
  match errorTypes.find? (fun p => p.2.any (fun pat => reSearchCI pat text)) with
  | some p => p.1
  | none => "Unknown Error"

/-- `ErrorDetector._check_patterns` (lines 242-254): scan every custom
keyword pattern (a `re.escape`d literal), appending each matching keyword
and reporting whether any matched. -/
def checkPatterns (kws : List String) (text : List Char) : Bool × List String :=
  kws.foldl
    (fun acc kw =>
      if containsCI kw.data text then (true, acc.2 ++ [kw]) else acc)
    (false, [])

/-- Configuration of `ErrorDetector.__init__` (lines 122-153): custom
keyword lists (the caller-supplied part of the rule tables). -/
structure DetectorCfg where
  error_keywords : List String := []
  warning_keywords : List String := []

/-- `self._stats` (lines 155-160). -/
structure DetStats where
  total_checked : Nat
  errors_detected : Nat
  warnings_detected : Nat
deriving DecidableEq

/-- `DetectionResult` (lines 8-15). -/
structure DetectionResult where
  is_error : Bool
  is_warning : Bool
  severity : String
  matched_keywords : List String
  error_type : Option String
deriving DecidableEq

/-- The text scanned by `detect` (line 166): level, node and message joined
by single spaces. -/
def detectText (e : LogEntry) : List Char :=
  (e.level ++ " " ++ e.node ++ " " ++ e.message).data

/-- First-occurrence deduplication, standing for the source `list(set(...))`
(line 204), whose order Python leaves unspecified. -/
def pySetDedup (l : List String) : List String :=
  l.foldl (fun acc a => if acc.contains a then acc else acc ++ [a]) []

/-- The severity computed by `detect` (line 170). -/
def detectSeverityOf (e : LogEntry) : String :=
  classifySeverity e (detectText e)

/-- The custom error-keyword scan of `detect` (lines 173-178).  Python `or`
short-circuits, so `_check_patterns` only runs — and only then appends its
matched keywords — when the two earlier disjuncts are false. -/
def detectErrScan (cfg : DetectorCfg) (e : LogEntry) : Bool × List String :=
  if e.is_error || (detectSeverityOf e == "critical" || detectSeverityOf e == "high") then
    (false, [])
  else checkPatterns cfg.error_keywords (detectText e)

/-- `is_error` as computed by `detect` (lines 173-178). -/
def detectIsError (cfg : DetectorCfg) (e : LogEntry) : Bool :=
  e.is_error || (detectSeverityOf e == "critical" || detectSeverityOf e == "high") ||
    (detectErrScan cfg e).1

/-- The custom warning-keyword scan of `detect` (lines 181-185), with the
same short-circuit behaviour. -/
def detectWarnScan (cfg : DetectorCfg) (e : LogEntry) : Bool × List String :=
  if e.is_warning || detectSeverityOf e == "medium" then (false, [])
  else checkPatterns cfg.warning_keywords (detectText e)

/-- `is_warning` as computed by `detect` (lines 181-185). -/
def detectIsWarning (cfg : DetectorCfg) (e : LogEntry) : Bool :=
  e.is_warning || detectSeverityOf e == "medium" || (detectWarnScan cfg e).1

/-- `matched_keywords` as collected by `detect` (lines 167, 196-198, 204):
the custom-scan matches plus the level itself when it is error-class,
deduplicated. -/
def detectMatchedKeywords (cfg : DetectorCfg) (e : LogEntry) : List String :=
  let mk0 := (detectErrScan cfg e).2 ++ (detectWarnScan cfg e).2
  let mk1 :=
    if ["ERROR", "FATAL", "CRITICAL"].contains (pyUpper e.level) then mk0 ++ [e.level]
    else mk0
  pySetDedup mk1

/-- The `DetectionResult` built by `detect` (lines 188-206): `error_type` is
set (to the first matching category, else the `"Unknown Error"` sentinel)
exactly when the entry is an error. -/
def detectResult (cfg : DetectorCfg) (e : LogEntry) : DetectionResult :=
  { is_error := detectIsError cfg e
    is_warning := detectIsWarning cfg e
    severity := detectSeverityOf e
    matched_keywords := detectMatchedKeywords cfg e
    error_type :=
      if detectIsError cfg e then some (classifyErrorType (detectText e)) else none }

/-- `ErrorDetector.detect` (lines 162-212): bump `total_checked`, classify,
bump `errors_detected` if the entry is an error ELSE `warnings_detected` if
it is a warning, and finally — when the entry is an error and a callback is
registered — invoke `on_error_detected` WITHOUT try/except (lines 209-210),
so a callback exception propagates to the caller after the stats were
already updated. -/
def ErrorDetector.detect (cfg : DetectorCfg) (stats : DetStats) (e : LogEntry)
    (onErrorDetected : Option (LogEntry → DetectionResult → Except String Unit)) :
    DetStats × Except String DetectionResult :=
  let stats1 := { stats with total_checked := stats.total_checked + 1 }
  let stats2 :=
    if detectIsError cfg e then
      { stats1 with errors_detected := stats1.errors_detected + 1 }
    else if detectIsWarning cfg e then
      { stats1 with warnings_detected := stats1.warnings_detected + 1 }
    else stats1
  let result := detectResult cfg e
  if detectIsError cfg e then
    match onErrorDetected with
    | some f =>
      match f e result with
      | .ok _ => (stats2, .ok result)
      | .error msg => (stats2, .error msg)
    | none => (stats2, .ok result)
  else (stats2, .ok result)

/-! ## Helper lemmas -/

theorem dequeAppend_length_le (m : Nat) (b : List α) (e : α) :
    (dequeAppend m b e).length ≤ m := by
  simp [dequeAppend]
  omega

theorem foldl_add_length_le : ∀ (rest : List LogEntry) (s : ContextEngine),
    s.buffer.length ≤ s.window_size →
    (rest.foldl ContextEngine.add s).buffer.length ≤ s.window_size
  | [], _, h => h
  | e :: tl, s, _ =>
    foldl_add_length_le tl (ContextEngine.add s e) (dequeAppend_length_le _ _ _)

theorem smart_add_error_eq (s : SmartContextEngine) (e : LogEntry)
    (cb : Option (List LogEntry → Except String Unit)) (h : e.is_error = true) :
    SmartContextEngine.add s e cb =
      ({ s with toContextEngine := ContextEngine.add s.toContextEngine e
                error_buffer :=
                  dequeOf s.error_window_size
                    (pySliceLast s.error_window_size
                      (ContextEngine.add s.toContextEngine e).buffer) }, true) := by
  unfold SmartContextEngine.add
  simp [h]

theorem classifySeverity_ite (e : LogEntry) (tx : List Char) :
    classifySeverity e tx =
      if tierMatches "critical" tx then "critical"
      else if tierMatches "high" tx then "high"
      else if tierMatches "medium" tx then "medium"
      else if tierMatches "low" tx then "low"
      else defaultSeverity e := by
  unfold classifySeverity tierOrder
  cases h1 : tierMatches "critical" tx <;> cases h2 : tierMatches "high" tx <;>
    cases h3 : tierMatches "medium" tx <;> cases h4 : tierMatches "low" tx <;>
      simp [List.find?_cons, h1, h2, h3, h4]

/-- Priority rank of a severity tier: lower rank means scanned earlier,
hence higher priority. -/
def sevRank (tier : String) : Nat :=
  if tier == "critical" then 0
  else if tier == "high" then 1
  else if tier == "medium" then 2
  else 3

theorem detect_fst (cfg : DetectorCfg) (st : DetStats) (e : LogEntry)
    (cb : Option (LogEntry → DetectionResult → Except String Unit)) :
    (ErrorDetector.detect cfg st e cb).1 =
      if detectIsError cfg e then
        { st with total_checked := st.total_checked + 1
                  errors_detected := st.errors_detected + 1 }
      else if detectIsWarning cfg e then
        { st with total_checked := st.total_checked + 1
                  warnings_detected := st.warnings_detected + 1 }
      else { st with total_checked := st.total_checked + 1 } := by
  unfold ErrorDetector.detect
  cases hE : detectIsError cfg e
  · cases hW : detectIsWarning cfg e <;> simp [hE, hW]
  · cases cb with
    | none => simp [hE]
    | some f => cases hfe : f e (detectResult cfg e) <;> simp [hE, hfe]

/-! ## Claim theorems -/

/-- Fixed log entry used by the C1 evaluation. -/
def c1Entry : LogEntry :=
  { timestamp := .now, level := "INFO", node := "/n", message := "m", raw_line := "m" }

/-- Engine state for the C1 evaluation: default configuration, one buffered
entry, the aware `_last_flush_time` set at construction. -/
def c1Engine : ContextEngine :=
  { window_size := 50, timeout_sec := 30, buffer := [c1Entry], last_flush_time := .aware 0 }

/-- Claim C1 (code bug): `should_flush` is claimed to always return a
boolean and never raise, with the timeout condition compared against
`timeout_sec`.  In fact, whenever the timeout branch is reached (non-empty
buffer, not triggered by error, buffer not full) the source subtracts the
offset-naive `datetime.utcnow()` from the offset-aware `_last_flush_time`
(context_engine.py line 71) and raises `TypeError`.  The other three
branches do return the claimed booleans. -/
theorem shouldFlush_timeout_branch_raises :
    c1Engine.should_flush false 31000000 =
      Except.error "TypeError: cannot subtract offset-naive and offset-aware datetimes" ∧
    ContextEngine.should_flush { c1Engine with buffer := [] } false 31000000 =
      Except.ok false ∧
    c1Engine.should_flush true 31000000 = Except.ok true ∧
    ContextEngine.should_flush { c1Engine with buffer := List.replicate 50 c1Entry } false 0 =
      Except.ok true :=
  ⟨rfl, rfl, rfl, rfl⟩

/-- Entries for the C2 window-size-3 scenario. -/
def c2A : LogEntry :=
  { timestamp := .now, level := "INFO", node := "t", message := "A", raw_line := "A" }

def c2B : LogEntry :=
  { timestamp := .now, level := "INFO", node := "t", message := "B", raw_line := "B" }

def c2C : LogEntry :=
  { timestamp := .now, level := "INFO", node := "t", message := "C", raw_line := "C" }

def c2D : LogEntry :=
  { timestamp := .now, level := "INFO", node := "t", message := "D", raw_line := "D" }

/-- Empty engine with `window_size = 3` for the C2 scenario. -/
def c2Engine0 : ContextEngine :=
  { window_size := 3, timeout_sec := 30, buffer := [], last_flush_time := .aware 0 }

/-- Engine with a full window-size-3 buffer, for exercising FIFO eviction. -/
def c2Full : ContextEngine :=
  { window_size := 3, timeout_sec := 30, buffer := [c2A, c2B, c2C], last_flush_time := .aware 0 }

/-- Claim C2: after every add in any sequence of adds the rolling buffer
holds at most `window_size` entries; eviction on a full buffer is FIFO
oldest-first; and the window-size-3 scenario A,B,C,D leaves `[B, C, D]`. -/
theorem rolling_buffer_bounded_and_fifo :
    (∀ (s : ContextEngine) (e : LogEntry) (rest : List LogEntry),
      ((e :: rest).foldl ContextEngine.add s).buffer.length ≤ s.window_size) ∧
    (∀ (s : ContextEngine) (e : LogEntry),
      0 < s.window_size → s.buffer.length = s.window_size →
      (ContextEngine.add s e).buffer = s.buffer.tail ++ [e]) ∧
    ([c2A, c2B, c2C, c2D].foldl ContextEngine.add c2Engine0).buffer = [c2B, c2C, c2D] := by
  refine ⟨?_, ?_, by decide⟩
  · intro s e rest
    exact foldl_add_length_le rest (ContextEngine.add s e) (dequeAppend_length_le _ _ _)
  · intro s e hpos hfull
    show (s.buffer ++ [e]).drop ((s.buffer ++ [e]).length - s.window_size) = s.buffer.tail ++ [e]
    have h1 : (s.buffer ++ [e]).length - s.window_size = 1 := by
      simp [hfull]
    rw [h1, List.drop_append_of_le_length (by omega), List.drop_one]

/-- Witness for C2: the FIFO clause applied to the concrete full engine. -/
theorem rolling_buffer_bounded_and_fifo_witness :
    (0 < c2Full.window_size ∧ c2Full.buffer.length = c2Full.window_size) ∧
    (ContextEngine.add c2Full c2D).buffer = c2Full.buffer.tail ++ [c2D] :=
  ⟨⟨by decide, by decide⟩,
    rolling_buffer_bounded_and_fifo.2.1 c2Full c2D (by decide) (by decide)⟩

/-- Claim C3: the parser is a total function producing exactly one entry
whose `raw_line` is always the unmodified input, and whenever neither the
full nor the simple pattern matches it degrades to the INFO/unknown
fallback carrying the whole line as the message. -/
theorem parse_total_fallback :
    (∀ line : String, (parseRosLog line).raw_line = line) ∧
    (∀ line : String, matchFull line.data = none → matchSimple line.data = none →
      parseRosLog line =
        { timestamp := .now, level := "INFO", node := "unknown",
          message := line, raw_line := line }) := by
  constructor
  · intro line
    unfold parseRosLog
    split
    · rfl
    · split
      · split <;> rfl
      · rfl
  · intro line h1 h2
    unfold parseRosLog
    rw [h1, h2]

/-- Witness for C3: the malformed scenario line matches neither pattern and
parses to the fallback entry. -/
theorem parse_total_fallback_witness :
    (matchFull "garbage text with no brackets".data = none ∧
      matchSimple "garbage text with no brackets".data = none) ∧
    parseRosLog "garbage text with no brackets" =
      { timestamp := .now, level := "INFO", node := "unknown",
        message := "garbage text with no brackets",
        raw_line := "garbage text with no brackets" } :=
  ⟨⟨by decide, by decide⟩,
    parse_total_fallback.2 "garbage text with no brackets" (by decide) (by decide)⟩

/-- INFO entries for the C4 scenario. -/
def c4I1 : LogEntry :=
  { timestamp := .now, level := "INFO", node := "t", message := "i1", raw_line := "i1" }

def c4I2 : LogEntry :=
  { timestamp := .now, level := "INFO", node := "t", message := "i2", raw_line := "i2" }

def c4I3 : LogEntry :=
  { timestamp := .now, level := "INFO", node := "t", message := "i3", raw_line := "i3" }

def c4I4 : LogEntry :=
  { timestamp := .now, level := "INFO", node := "t", message := "i4", raw_line := "i4" }

def c4I5 : LogEntry :=
  { timestamp := .now, level := "INFO", node := "t", message := "i5", raw_line := "i5" }

/-- The ERROR entry closing the C4 scenario. -/
def c4Err : LogEntry :=
  { timestamp := .now, level := "ERROR", node := "t", message := "boom", raw_line := "boom" }

/-- Fresh smart engine with `error_window_size = 3` for the C4 scenario. -/
def c4Start : SmartContextEngine :=
  { window_size := 50, timeout_sec := 30, buffer := [], last_flush_time := .aware 0,
    error_window_size := 3, error_buffer := [] }

/-- C4 scenario state after adding the five INFO entries. -/
def c4Mid : SmartContextEngine :=
  [c4I1, c4I2, c4I3, c4I4, c4I5].foldl
    (fun st x => (SmartContextEngine.add st x none).1) c4Start

/-- C4 scenario state after also adding the ERROR entry. -/
def c4Scenario : SmartContextEngine := (SmartContextEngine.add c4Mid c4Err none).1

/-- Claim C4: an error-classified add rebuilds the error buffer as the most
recent `error_window_size` entries of the (post-append) rolling buffer, so
its length is `min error_window_size available` and its last element is the
triggering entry; and in the concrete scenario (five INFO adds then one
ERROR add with `error_window_size = 3`) the snapshot is the last three of
the six entries, ending with the ERROR entry. -/
theorem error_context_rebuild :
    (∀ (s : SmartContextEngine) (e : LogEntry)
        (cb : Option (List LogEntry → Except String Unit)),
      0 < s.window_size → 0 < s.error_window_size → e.is_error = true →
        ((s.add e cb).2 = true ∧
          (s.add e cb).1.error_buffer =
            (s.add e cb).1.buffer.drop
              ((s.add e cb).1.buffer.length - s.error_window_size) ∧
          (s.add e cb).1.error_buffer.length =
            min s.error_window_size (s.add e cb).1.buffer.length ∧
          (s.add e cb).1.error_buffer.getLast? = some e)) ∧
    (c4Scenario.error_buffer = [c4I4, c4I5, c4Err] ∧
      c4Scenario.error_buffer.getLast? = some c4Err) := by
  constructor
  · intro s e cb hw hk hisErr
    rw [smart_add_error_eq s e cb hisErr]
    dsimp only
    set B := (ContextEngine.add s.toContextEngine e).buffer with hBdef
    set k := s.error_window_size with hkdef
    have hd : s.buffer.length + 1 - s.window_size ≤ s.buffer.length := by omega
    have hBsplit : B = s.buffer.drop (s.buffer.length + 1 - s.window_size) ++ [e] := by
      rw [hBdef]
      show dequeAppend s.window_size s.buffer e = _
      unfold dequeAppend
      dsimp only
      have hlen : (s.buffer ++ [e]).length - s.window_size =
          s.buffer.length + 1 - s.window_size := by
        simp
      rw [hlen]
      exact List.drop_append_of_le_length hd
    have hE : dequeOf k (pySliceLast k B) = B.drop (B.length - k) := by
      unfold pySliceLast
      rw [if_neg (by simp only [beq_iff_eq]; omega)]
      unfold dequeOf
      have hz : (B.drop (B.length - k)).length - k = 0 := by
        simp only [List.length_drop]
        omega
      rw [hz, List.drop_zero]
    refine ⟨rfl, hE, ?_, ?_⟩
    · rw [hE]
      simp only [List.length_drop]
      rw [Nat.min_def]
      split_ifs <;> omega
    · rw [hE, hBsplit]
      have hxle : (s.buffer.drop (s.buffer.length + 1 - s.window_size) ++ [e]).length - k ≤
          (s.buffer.drop (s.buffer.length + 1 - s.window_size)).length := by
        simp only [List.length_append, List.length_drop, List.length_cons, List.length_nil]
        omega
      rw [List.drop_append_of_le_length hxle]
      exact List.getLast?_concat _
  · exact ⟨by decide, by decide⟩

/-- Witness for C4: the general clause applied at the scenario state just
before the ERROR entry arrives. -/
theorem error_context_rebuild_witness :
    (0 < c4Mid.window_size ∧ 0 < c4Mid.error_window_size ∧ c4Err.is_error = true) ∧
    ((c4Mid.add c4Err none).2 = true ∧
      (c4Mid.add c4Err none).1.error_buffer =
        (c4Mid.add c4Err none).1.buffer.drop
          ((c4Mid.add c4Err none).1.buffer.length - c4Mid.error_window_size) ∧
      (c4Mid.add c4Err none).1.error_buffer.length =
        min c4Mid.error_window_size (c4Mid.add c4Err none).1.buffer.length ∧
      (c4Mid.add c4Err none).1.error_buffer.getLast? = some c4Err) :=
  ⟨⟨by decide, by decide, by decide⟩,
    error_context_rebuild.1 c4Mid c4Err none (by decide) (by decide) (by decide)⟩

/-- Claim C5: `flush` returns the pre-flush rolling buffer in arrival
order, clears it, stamps `_last_flush_time` with the (aware) flush instant,
and leaves the error buffer — and all configuration — untouched. -/
theorem flush_frame_effect :
    ∀ (s : SmartContextEngine) (t : Int),
      (s.flush t).2 = s.buffer ∧
      (s.flush t).1.buffer = [] ∧
      (s.flush t).1.last_flush_time = PyDt.aware t ∧
      (s.flush t).1.error_buffer = s.error_buffer ∧
      (s.flush t).1.window_size = s.window_size ∧
      (s.flush t).1.timeout_sec = s.timeout_sec ∧
      (s.flush t).1.error_window_size = s.error_window_size :=
  fun _ _ => ⟨rfl, rfl, rfl, rfl, rfl, rfl, rfl⟩

/-- Claim C6: the severity tiers are scanned in the fixed order critical,
high, medium, low over the level-node-message text; whenever some tier
matches, the classification is itself a matching tier of rank at most that
of any matching tier (so matching two tiers yields the higher-priority
one); and when no tier matches, the result is the level-based default
FATAL/CRITICAL to critical, ERROR to high, WARN to medium, else low. -/
theorem severity_first_tier_wins :
    ∀ e : LogEntry,
      (∀ tier, tier ∈ tierOrder → tierMatches tier (detectText e) = true →
        sevRank (classifySeverity e (detectText e)) ≤ sevRank tier ∧
        tierMatches (classifySeverity e (detectText e)) (detectText e) = true) ∧
      ((∀ tier, tier ∈ tierOrder → tierMatches tier (detectText e) = false) →
        classifySeverity e (detectText e) =
          if pyUpper e.level = "FATAL" ∨ pyUpper e.level = "CRITICAL" then "critical"
          else if pyUpper e.level = "ERROR" then "high"
          else if pyUpper e.level = "WARN" then "medium"
          else "low") := by
  intro e
  have hch := classifySeverity_ite e (detectText e)
  constructor
  · intro tier htier hmatch
    simp only [tierOrder, List.mem_cons, List.not_mem_nil, or_false] at htier
    cases hc : tierMatches "critical" (detectText e) <;>
      cases hh : tierMatches "high" (detectText e) <;>
        cases hm : tierMatches "medium" (detectText e) <;>
          cases hl : tierMatches "low" (detectText e) <;>
            rcases htier with rfl | rfl | rfl | rfl <;>
              simp_all [sevRank]
  · intro hnone
    have hc := hnone "critical" (by simp [tierOrder])
    have hh := hnone "high" (by simp [tierOrder])
    have hm := hnone "medium" (by simp [tierOrder])
    have hl := hnone "low" (by simp [tierOrder])
    rw [hch, hc, hh, hm, hl]
    simp only [Bool.false_eq_true, if_false]
    unfold defaultSeverity
    simp only [Bool.or_eq_true, beq_iff_eq]

/-- Log entry whose message matches both the critical tier (collision) and
the high tier (timeout). -/
def c6Entry : LogEntry :=
  { timestamp := .now, level := "INFO", node := "robot",
    message := "collision after timeout", raw_line := "x" }

/-- Witness for C6: on an entry matching two tiers the classification is a
matching tier of priority at least that of the critical tier. -/
theorem severity_first_tier_wins_witness :
    ("critical" ∈ tierOrder ∧ tierMatches "critical" (detectText c6Entry) = true) ∧
    (sevRank (classifySeverity c6Entry (detectText c6Entry)) ≤ sevRank "critical" ∧
      tierMatches (classifySeverity c6Entry (detectText c6Entry)) (detectText c6Entry) = true) :=
  ⟨⟨by decide, by decide⟩,
    (severity_first_tier_wins c6Entry).1 "critical" (by decide) (by decide)⟩

/-- INFO-level entry that the detector classifies as an error (its text
matches the high tier via "Exception"), used to refute claim C7. -/
def c7Entry : LogEntry :=
  { timestamp := .now, level := "INFO", node := "/comms",
    message := "Exception: connect refused", raw_line := "r" }

/-- Fresh smart engine with the default configuration for the C7
counterexample. -/
def c7State : SmartContextEngine :=
  { window_size := 50, timeout_sec := 30, buffer := [], last_flush_time := .aware 0,
    error_window_size := 20, error_buffer := [] }

/-- Whether the Classifier (`ErrorDetector.detect`, no custom keywords, no
callback) reports the entry as an error. -/
def detectSaysError (e : LogEntry) : Bool :=
  match (ErrorDetector.detect {} ⟨0, 0, 0⟩ e none).2 with
  | .ok r => r.is_error
  | .error _ => false

/-- Counterexample to claim C7 as stated: the Classifier reports `c7Entry`
as an error (severity resolves to high), yet `SmartContextEngine.add`
returns `False` for it — `add` never invokes the Classifier, it only checks
the entry level (context_engine.py line 133). -/
theorem smart_add_ignores_classifier_cex :
    detectSaysError c7Entry = true ∧
    (SmartContextEngine.add c7State c7Entry none).2 = false :=
  ⟨by decide, by decide⟩

/-- Claim C7 (amended): `SmartContextEngine.add` returns exactly
`LogEntry.is_error()`, i.e. it is true precisely when the upper-cased level
is ERROR, FATAL or CRITICAL; severity and custom keywords are never
consulted. -/
theorem smart_add_returns_level_check :
    ∀ (s : SmartContextEngine) (e : LogEntry)
      (cb : Option (List LogEntry → Except String Unit)),
      ((s.add e cb).2 = true ↔
        (pyUpper e.level = "ERROR" ∨ pyUpper e.level = "FATAL" ∨
          pyUpper e.level = "CRITICAL")) := by
  intro s e cb
  have hstep : (s.add e cb).2 = e.is_error := by
    unfold SmartContextEngine.add
    cases h : e.is_error <;> simp [h]
  rw [hstep]
  unfold LogEntry.is_error
  simp [List.contains_cons, List.elem_eq_mem]

/-- ERROR entry used in the C8 counterexample. -/
def c8Entry : LogEntry :=
  { timestamp := .now, level := "ERROR", node := "/n", message := "boom", raw_line := "b" }

/-- Counterexample to claim C8 as stated: `detect` invokes the
`on_error_detected` callback WITHOUT try/except (error_detector.py lines
209-210), so a raising callback propagates to the caller of `detect` — the
stats having already been updated. -/
theorem detect_callback_propagates_cex :
    (ErrorDetector.detect {} ⟨0, 0, 0⟩ c8Entry
      (some (fun _ _ => Except.error "callback boom"))).2 =
      Except.error "callback boom" ∧
    (ErrorDetector.detect {} ⟨0, 0, 0⟩ c8Entry
      (some (fun _ _ => Except.error "callback boom"))).1 =
      { total_checked := 1, errors_detected := 1, warnings_detected := 0 } :=
  ⟨rfl, rfl⟩

/-- Claim C8 (amended): the error-context callback invoked by
`SmartContextEngine.add` and the flush callback invoked by the background
flush loop are both guarded by try/except at the call site — a raising
callback changes neither the resulting state nor the returned value, and
nothing propagates; the error-detected callback invoked by `detect` is NOT
so guarded. -/
theorem context_callbacks_swallowed :
    (∀ (s : SmartContextEngine) (e : LogEntry)
        (f : List LogEntry → Except String Unit),
      SmartContextEngine.add s e (some f) = SmartContextEngine.add s e none) ∧
    (∀ (s : ContextEngine) (tn tf : Int)
        (f : List LogEntry → Except String Unit),
      ContextEngine.flushLoopStep s tn tf (some f) =
        ContextEngine.flushLoopStep s tn tf none) := by
  constructor
  · intro s e f
    unfold SmartContextEngine.add
    cases h : e.is_error <;> simp [h]
  · intro s tn tf f
    unfold ContextEngine.flushLoopStep
    cases h : s.should_flush false tn with
    | error m => rfl
    | ok b => cases b <;> rfl

/-- The full-form line of the C9 round trip. -/
def c9Line : String :=
  "[ERROR] [2024-01-15 10:30:45.123456] [/move_base]: Transform timeout"

/-- The same line with the fractional seconds removed. -/
def c9NoFracLine : String :=
  "[ERROR] [2024-01-15 10:30:45] [/move_base]: Transform timeout"

/-- A full-form line whose timestamp defeats both strptime formats. -/
def c9BadMonthLine : String :=
  "[ERROR] [2024-13-15 10:30:45.123456] [/move_base]: bad month"

/-- Counterexample to claim C9 as stated: the fractional-seconds part is
NOT optional in the full-form pattern — its timestamp group requires
a dot and digits (log_ingestor.py line 79) — so the same line without the
fraction fails the full pattern (and the simple one) and degrades to the
INFO/unknown fallback instead of parsing as an ERROR from `/move_base`. -/
theorem full_form_requires_fraction_cex :
    matchFull c9NoFracLine.data = none ∧
    parseRosLog c9NoFracLine =
      { timestamp := .now, level := "INFO", node := "unknown",
        message := c9NoFracLine, raw_line := c9NoFracLine } :=
  ⟨rfl, rfl⟩

/-- Claim C9 (amended): the well-formed line parses to exactly the claimed
entry with timestamp 2024-01-15T10:30:45.123456; the fractional-seconds
part is required by the full-form pattern; for a matched full-form
timestamp the parser attempts `%Y-%m-%d %H:%M:%S.%f`, then
`%Y-%m-%d %H:%M:%S`, before falling back to the wall clock — exercised here
by the fractional format succeeding on the round-trip timestamp, the plain
format succeeding on a fraction-free timestamp, and a full-form line whose
month defeats both formats parsing with the wall-clock timestamp. -/
theorem full_form_roundtrip_and_fallback :
    parseRosLog c9Line =
      { timestamp := .parsed ⟨2024, 1, 15, 10, 30, 45, 123456⟩, level := "ERROR",
        node := "/move_base", message := "Transform timeout", raw_line := c9Line } ∧
    strptimeWithFrac "2024-01-15 10:30:45.123456" =
      some ⟨2024, 1, 15, 10, 30, 45, 123456⟩ ∧
    strptimeNoFrac "2024-01-15 10:30:45" = some ⟨2024, 1, 15, 10, 30, 45, 0⟩ ∧
    strptimeWithFrac "2024-13-15 10:30:45.123456" = none ∧
    strptimeNoFrac "2024-13-15 10:30:45.123456" = none ∧
    parseRosLog c9BadMonthLine =
      { timestamp := .now, level := "ERROR", node := "/move_base",
        message := "bad month", raw_line := c9BadMonthLine } :=
  ⟨rfl, rfl, rfl, rfl, rfl, rfl⟩

/-- Claim C10: every `detect` call adds exactly one to `total_checked`; it
adds one to `errors_detected` exactly on error results and one to
`warnings_detected` exactly on warning-but-not-error results (never both);
the registered callback cannot change the stats; and the invariant
`total_checked ≥ errors_detected + warnings_detected` is preserved. -/
theorem detect_stats_invariant :
    ∀ (cfg : DetectorCfg) (st : DetStats) (e : LogEntry)
      (cb : Option (LogEntry → DetectionResult → Except String Unit)),
      st.total_checked ≥ st.errors_detected + st.warnings_detected →
      ∃ r : DetectionResult,
        (ErrorDetector.detect cfg st e none).2 = Except.ok r ∧
        (ErrorDetector.detect cfg st e cb).1 = (ErrorDetector.detect cfg st e none).1 ∧
        (ErrorDetector.detect cfg st e none).1.total_checked = st.total_checked + 1 ∧
        (ErrorDetector.detect cfg st e none).1.errors_detected =
          st.errors_detected + (if r.is_error then 1 else 0) ∧
        (ErrorDetector.detect cfg st e none).1.warnings_detected =
          st.warnings_detected +
            (if r.is_error then 0 else if r.is_warning then 1 else 0) ∧
        (ErrorDetector.detect cfg st e cb).1.total_checked ≥
          (ErrorDetector.detect cfg st e cb).1.errors_detected +
            (ErrorDetector.detect cfg st e cb).1.warnings_detected := by
  intro cfg st e cb hinv
  refine ⟨detectResult cfg e, ?_, ?_, ?_, ?_, ?_, ?_⟩
  · unfold ErrorDetector.detect
    cases hE : detectIsError cfg e <;> simp [hE]
  · rw [detect_fst, detect_fst]
  · rw [detect_fst]
    cases hE : detectIsError cfg e <;> cases hW : detectIsWarning cfg e <;> simp [hE, hW]
  · rw [detect_fst]
    cases hE : detectIsError cfg e <;> cases hW : detectIsWarning cfg e <;>
      simp [hE, hW, detectResult]
  · rw [detect_fst]
    cases hE : detectIsError cfg e <;> cases hW : detectIsWarning cfg e <;>
      simp [hE, hW, detectResult]
  · rw [detect_fst]
    cases hE : detectIsError cfg e <;> cases hW : detectIsWarning cfg e <;>
      simp [hE, hW] <;> omega

/-- Error entry for the C10 witness. -/
def c10Entry : LogEntry :=
  { timestamp := .now, level := "ERROR", node := "/n", message := "failed", raw_line := "x" }

/-- Stats state satisfying the C10 invariant hypothesis. -/
def c10Stats : DetStats := ⟨5, 2, 1⟩

/-- Witness for C10: the invariant clause applied at a concrete stats
state and entry. -/
theorem detect_stats_invariant_witness :
    (c10Stats.total_checked ≥ c10Stats.errors_detected + c10Stats.warnings_detected) ∧
    (∃ r : DetectionResult,
      (ErrorDetector.detect {} c10Stats c10Entry none).2 = Except.ok r ∧
      (ErrorDetector.detect {} c10Stats c10Entry none).1 =
        (ErrorDetector.detect {} c10Stats c10Entry none).1 ∧
      (ErrorDetector.detect {} c10Stats c10Entry none).1.total_checked =
        c10Stats.total_checked + 1 ∧
      (ErrorDetector.detect {} c10Stats c10Entry none).1.errors_detected =
        c10Stats.errors_detected + (if r.is_error then 1 else 0) ∧
      (ErrorDetector.detect {} c10Stats c10Entry none).1.warnings_detected =
        c10Stats.warnings_detected +
          (if r.is_error then 0 else if r.is_warning then 1 else 0) ∧
      (ErrorDetector.detect {} c10Stats c10Entry none).1.total_checked ≥
        (ErrorDetector.detect {} c10Stats c10Entry none).1.errors_detected +
          (ErrorDetector.detect {} c10Stats c10Entry none).1.warnings_detected) :=
  ⟨by decide, detect_stats_invariant {} c10Stats c10Entry none (by decide)⟩
